import Mathlib

/-!
Verification of the sipi-etl detection & region-monitoring core.

Shallow embedding of:
* `src/modules/portals/idealista/transform/scorer.py` (`ReligiousPropertyScorer.score`)
* `src/modules/portals/idealista/transform/overpass_queries.py` (`OverpassClient.find_churches_nearby`)
* `src/modules/portals/idealista/transform/osm_matcher.py` (`IdealistaOSMMatcher.find_match`)
* `src/core/geo/models.py` (`GeoRegion.contains_point`, `GeoRegion.get_bounding_box`)
* `src/core/geo/region_monitor.py` (`RegionMonitor.scan_region`, `_save_detection`,
  `start_monitoring`, `stop_monitoring`, `_get_status_for_score`)

Numbers are modelled as `ℚ` (the Python code works on int/float; every quantity the
claims depend on is exact decimal arithmetic).  Network, database and clock
collaborators are passed in as explicit parameters, mirroring the constructor-injected
collaborator objects of the Python classes.
-/

namespace SipiEtl

/-! ### Python string primitives -/

/-- Model of Python `str.lower()` (ASCII case folding; all keywords in the source
configuration are already lower-case). -/
def pyLower (s : String) : String := ⟨s.data.map Char.toLower⟩

/-- Helper for `pyIn`: does `sub` occur at the head of `s`? -/
def charsLead : List Char → List Char → Bool
  | [], _ => true
  | _ :: _, [] => false
  | a :: as, b :: bs => a == b && charsLead as bs

/-- Helper for `pyIn`: does `sub` occur contiguously anywhere in `s`? -/
def charsContains (sub : List Char) (s : List Char) : Bool :=
  match s with
  | [] => charsLead sub []
  | _ :: rest => charsLead sub s || charsContains sub rest

/-- Model of the Python substring test `sub in s`. -/
def pyIn (sub s : String) : Bool := charsContains sub.data s.data

/-- Python truthiness of an optional number: `None` and `0.0` are falsy. -/
def pyTruthyOpt (x : Option ℚ) : Bool :=
  match x with
  | none => false
  | some v => v != 0

/-- Python truthiness of a number: `0.0` is falsy. -/
def pyTruthyNum (v : ℚ) : Bool := v != 0

/-- Kernel-reducible embedding of a natural number into `ℚ` (used instead of
`Nat.cast`, whose `Mathlib` instance does not reduce under `decide`). -/
def natToRat (n : ℕ) : ℚ := mkRat (Int.ofNat n) 1

/-! ### Scoring configuration

From `src/modules/portals/idealista/config/scoring.py`:
`WEIGHTS = {"keywords": 70, "proximity": 20, "surface": 10}`,
`PROXIMITY = {"radius_meters": 200, "max_score": 20, ...}`,
`SURFACE = {"min_size_m2": 300, "max_score": 10, "bonus": {"high_ceilings": 3, "multiple_floors": 3}}`.
-/

def WEIGHTS_keywords : ℕ := 70

def PROXIMITY_radius_meters : ℚ := 200

def PROXIMITY_max_score : ℚ := 20

def SURFACE_min_size_m2 : ℚ := 300

def SURFACE_max_score : ℚ := 10

def SURFACE_bonus_high_ceilings : ℚ := 3

def SURFACE_bonus_multiple_floors : ℚ := 3

/-- Modelled from the spec: the scorer imports `EXPLICIT` from
`src/modules/portals/idealista/config/keywords.py`, a file that is not present under
`src/`.  The spec (§4.2) enumerates the explicit keyword list verbatim. -/
def EXPLICIT : List String :=
  ["iglesia", "convento", "monasterio", "capilla", "ermita", "basílica", "catedral",
   "templo", "parroquia", "santuario", "claustro", "abadía", "colegiata", "priorato",
   "cartuja"]

/-!
`POSITIVE` and `NEGATIVE` also live in the missing `config/keywords.py` and are not
enumerated by the spec; the scorer below is therefore parameterized over those two pool
lists (the spec only fixes the ± even-split scheme applied to them).
-/

/-! ### OSM church data (OSMChurch, overpass_queries.py) -/

/-- `OSMChurch` from `overpass_queries.py`: osm id, osm element type, name,
coordinates and distance (meters) to the query point. -/
structure OSMChurch where
  osm_id : ℕ
  osm_type : String
  name : String
  lat : ℚ
  lon : ℚ
  distance : ℚ
deriving DecidableEq, Repr

/-! ### The scorer (`ReligiousPropertyScorer.score`)

The source method references `self.overpass` (never assigned by `__init__`); it is
modelled as the explicit collaborator parameter `findNearby`.  The source declares the
evidence accumulator as `evidences` and then appends to / returns `evidencias`; both
identifiers clearly denote the single evidence list, which is what is modelled here.
-/

/-- The text scored by the keyword phase:
`f"{inmueble.get('titulo_completo', '')} {' '.join(inmueble.get('caracteristicas_extras', []))}"`. -/
structure Inmueble where
  titulo_completo : String := ""
  caracteristicas_extras : List String := []
  latitud : Option ℚ := none
  longitud : Option ℚ := none
  m2_construidos : Option ℚ := none
deriving DecidableEq, Repr

/-- The concatenated title + extra-features text that the keyword phase lowercases. -/
def listingText (inm : Inmueble) : String :=
  inm.titulo_completo ++ (" ") ++ String.intercalate (" ") inm.caracteristicas_extras

/-- Phase 1 of `score`: explicit keywords short-circuit the positive/negative pool;
otherwise each matching positive term adds `WEIGHTS["keywords"] // len(POSITIVE)` and
each matching negative term subtracts `WEIGHTS["keywords"] // len(NEGATIVE)`
(Python floor division on ints; the division only ever executes when the
corresponding pool has a matching — hence existing — member, so `Nat` division by an
empty pool's length never contributes).  Evidence strings follow the source's
f-strings, with the quotation marks around the keyword dropped. -/
def scoreKeywords (POSITIVE NEGATIVE : List String) (textLower : String) : ℚ × List String :=
  if EXPLICIT.any (fun k => pyIn k textLower) then
    (100, ["Keyword explícita (100 %)"])
  else
    let posM := POSITIVE.filter (fun kw => pyIn (pyLower kw) textLower)
    let negM := NEGATIVE.filter (fun kw => pyIn (pyLower kw) textLower)
    (natToRat (posM.length * (WEIGHTS_keywords / POSITIVE.length))
      - natToRat (negM.length * (WEIGHTS_keywords / NEGATIVE.length)),
     posM.map (fun kw => ("Keyword positiva ") ++ kw)
       ++ negM.map (fun kw => ("Keyword negativa ") ++ kw))

/-- Phase 2 of `score`: OSM proximity bonus
`PROXIMITY["max_score"] * (1 - min(closest.distance / 300, 1))`, only when both
coordinates are present (`is not None` in the source — an exact `None` test, not
truthiness).  The evidence string approximates the source's `:.0f` float formatting
with exact-rational printing. -/
def addProximity (findNearby : ℚ → ℚ → ℚ → List OSMChurch) (inm : Inmueble)
    (acc : ℚ × List String) : ℚ × List String :=
  match inm.latitud, inm.longitud with
  | some lat, some lon =>
    match findNearby lat lon PROXIMITY_radius_meters with
    | [] => acc
    | closest :: rest =>
      (acc.1 + PROXIMITY_max_score * (1 - min (closest.distance / 300) 1),
       acc.2 ++ [toString (rest.length + 1)
         ++ (" iglesia(s) OSM en 200m, más cercana a ") ++ toString closest.distance ++ ("m")])
  | _, _ => acc

/-- First step of phase 3 of `score`: surface bonus
(`if m2 and m2 >= SURFACE["min_size_m2"]` — note the Python truthiness test on `m2`). -/
def surfaceBonusM2 (inm : Inmueble) (acc : ℚ × List String) : ℚ × List String :=
  match inm.m2_construidos with
  | some m2 =>
    if pyTruthyNum m2 && decide (SURFACE_min_size_m2 ≤ m2) then
      (acc.1 + SURFACE_max_score, acc.2 ++ ["Superficie ≥ 300m²"])
    else acc
  | none => acc

/-- Second step of phase 3: high-ceilings / double-height feature bonus. -/
def ceilingsBonus (extras : String) (acc : ℚ × List String) : ℚ × List String :=
  if pyIn ("techos altos") extras || pyIn ("doble altura") extras then
    (acc.1 + SURFACE_bonus_high_ceilings, acc.2 ++ ["Techos altos/doble altura"])
  else acc

/-- Third step of phase 3: multiple-floors feature bonus. -/
def floorsBonus (extras : String) (acc : ℚ × List String) : ℚ × List String :=
  if pyIn ("varias plantas") extras || pyIn ("múltiples niveles") extras then
    (acc.1 + SURFACE_bonus_multiple_floors, acc.2 ++ ["Múltiples niveles"])
  else acc

/-- Phase 3 of `score`: surface bonus, then the two feature-text bonuses, in source
order. -/
def addSurface (inm : Inmueble) (acc : ℚ × List String) : ℚ × List String :=
  let extras := pyLower (String.intercalate (" ") inm.caracteristicas_extras)
  floorsBonus extras (ceilingsBonus extras (surfaceBonusM2 inm acc))

/-- `ReligiousPropertyScorer.score`: keyword phase, proximity phase, surface phase,
then `return min(score, 100), evidencias`. -/
def score (POSITIVE NEGATIVE : List String) (findNearby : ℚ → ℚ → ℚ → List OSMChurch)
    (inm : Inmueble) : ℚ × List String :=
  let r := addSurface inm
    (addProximity findNearby inm
      (scoreKeywords POSITIVE NEGATIVE (pyLower (listingText inm))))
  (min r.1 100, r.2)

/-! ### Basic facts about the scoring phases -/

theorem addProximity_fst_le (f : ℚ → ℚ → ℚ → List OSMChurch) (inm : Inmueble)
    (acc : ℚ × List String) : acc.1 ≤ (addProximity f inm acc).1 := by
  obtain ⟨tc, ce, la, lo, m2⟩ := inm
  cases la with
  | none => exact le_refl _
  | some lat =>
    cases lo with
    | none => exact le_refl _
    | some lon =>
      unfold addProximity
      dsimp only
      cases f lat lon PROXIMITY_radius_meters with
      | nil => exact le_refl _
      | cons closest rest =>
        have h1 : min (closest.distance / 300) 1 ≤ 1 := min_le_right _ _
        have h2 : (0 : ℚ) ≤ PROXIMITY_max_score * (1 - min (closest.distance / 300) 1) :=
          mul_nonneg (by norm_num [PROXIMITY_max_score]) (by linarith)
        dsimp only
        linarith

theorem addProximity_snd_append (f : ℚ → ℚ → ℚ → List OSMChurch) (inm : Inmueble)
    (acc : ℚ × List String) : ∃ t, (addProximity f inm acc).2 = acc.2 ++ t := by
  obtain ⟨tc, ce, la, lo, m2⟩ := inm
  cases la with
  | none => exact ⟨[], (List.append_nil _).symm⟩
  | some lat =>
    cases lo with
    | none => exact ⟨[], (List.append_nil _).symm⟩
    | some lon =>
      unfold addProximity
      dsimp only
      cases f lat lon PROXIMITY_radius_meters with
      | nil => exact ⟨[], (List.append_nil _).symm⟩
      | cons closest rest => exact ⟨_, rfl⟩

theorem surfaceBonusM2_fst_le (inm : Inmueble) (acc : ℚ × List String) :
    acc.1 ≤ (surfaceBonusM2 inm acc).1 := by
  unfold surfaceBonusM2
  split
  · split
    · dsimp only; norm_num [SURFACE_max_score]
    · exact le_refl _
  · exact le_refl _

theorem ceilingsBonus_fst_le (extras : String) (acc : ℚ × List String) :
    acc.1 ≤ (ceilingsBonus extras acc).1 := by
  unfold ceilingsBonus
  split
  · dsimp only; norm_num [SURFACE_bonus_high_ceilings]
  · exact le_refl _

theorem floorsBonus_fst_le (extras : String) (acc : ℚ × List String) :
    acc.1 ≤ (floorsBonus extras acc).1 := by
  unfold floorsBonus
  split
  · dsimp only; norm_num [SURFACE_bonus_multiple_floors]
  · exact le_refl _

theorem addSurface_fst_le (inm : Inmueble) (acc : ℚ × List String) :
    acc.1 ≤ (addSurface inm acc).1 :=
  le_trans (surfaceBonusM2_fst_le inm acc)
    (le_trans (ceilingsBonus_fst_le _ _) (floorsBonus_fst_le _ _))

theorem surfaceBonusM2_snd_append (inm : Inmueble) (acc : ℚ × List String) :
    ∃ t, (surfaceBonusM2 inm acc).2 = acc.2 ++ t := by
  unfold surfaceBonusM2
  split
  · split
    · exact ⟨_, rfl⟩
    · exact ⟨[], (List.append_nil _).symm⟩
  · exact ⟨[], (List.append_nil _).symm⟩

theorem ceilingsBonus_snd_append (extras : String) (acc : ℚ × List String) :
    ∃ t, (ceilingsBonus extras acc).2 = acc.2 ++ t := by
  unfold ceilingsBonus
  split
  · exact ⟨_, rfl⟩
  · exact ⟨[], (List.append_nil _).symm⟩

theorem floorsBonus_snd_append (extras : String) (acc : ℚ × List String) :
    ∃ t, (floorsBonus extras acc).2 = acc.2 ++ t := by
  unfold floorsBonus
  split
  · exact ⟨_, rfl⟩
  · exact ⟨[], (List.append_nil _).symm⟩

theorem addSurface_snd_append (inm : Inmueble) (acc : ℚ × List String) :
    ∃ t, (addSurface inm acc).2 = acc.2 ++ t := by
  obtain ⟨t1, h1⟩ := surfaceBonusM2_snd_append inm acc
  obtain ⟨t2, h2⟩ := ceilingsBonus_snd_append
    (pyLower (String.intercalate (" ") inm.caracteristicas_extras)) (surfaceBonusM2 inm acc)
  obtain ⟨t3, h3⟩ := floorsBonus_snd_append
    (pyLower (String.intercalate (" ") inm.caracteristicas_extras))
    (ceilingsBonus (pyLower (String.intercalate (" ") inm.caracteristicas_extras))
      (surfaceBonusM2 inm acc))
  refine ⟨t1 ++ t2 ++ t3, ?_⟩
  show (floorsBonus _ (ceilingsBonus _ (surfaceBonusM2 inm acc))).2 = _
  rw [h3, h2, h1]
  simp [List.append_assoc]

/-! ### Claim C1 -/

/-- C1 (amended): for every keyword-pool configuration, every OSM collaborator and
every listing, the score returned by `ReligiousPropertyScorer.score` is at most 100.
The lower bound of the claim fails: the source clamps only from above
(`min(score, 100)`), see `c1_counterexample`. -/
theorem c1_score_le_100 (POSITIVE NEGATIVE : List String)
    (f : ℚ → ℚ → ℚ → List OSMChurch) (inm : Inmueble) :
    (score POSITIVE NEGATIVE f inm).1 ≤ 100 :=
  min_le_right _ _

unseal Rat.sub Rat.add Rat.mul Rat.inv Rat.ofScientific in
/-- C1 counterexample: with negative-pool keywords matching and nothing positive,
the returned score is strictly negative (here `-69`), refuting `0 ≤ score`.
The keyword pools are instantiated explicitly since `config/keywords.py` is not in
`src/`; any configuration with a matching negative keyword behaves this way. -/
theorem c1_counterexample :
    (score ["altar", "campanario"] ["garaje", "piscina", "moderno"] (fun _ _ _ => [])
      ⟨"Piso moderno con garaje y piscina", [], none, none, some 60⟩).1 < 0 := by
  decide

/-! ### Claim C4 -/

/-- C4 (amended): an explicit keyword match forces the final score to be exactly 100
and makes the explicit-match note the first evidence entry, skipping the
positive/negative pool; the surface, feature and proximity factors still run and may
append further evidence (they only ever add, and the final `min(score, 100)` keeps
the result at 100). -/
theorem c4_explicit_scores_100 (POSITIVE NEGATIVE : List String)
    (f : ℚ → ℚ → ℚ → List OSMChurch) (inm : Inmueble)
    (h : EXPLICIT.any (fun k => pyIn k (pyLower (listingText inm))) = true) :
    (score POSITIVE NEGATIVE f inm).1 = 100 ∧
    (score POSITIVE NEGATIVE f inm).2.head? = some ("Keyword explícita (100 %)") := by
  have hk : scoreKeywords POSITIVE NEGATIVE (pyLower (listingText inm))
      = (100, ["Keyword explícita (100 %)"]) := by
    unfold scoreKeywords
    rw [h]
    simp
  obtain ⟨t1, ht1⟩ := addProximity_snd_append f inm
    (scoreKeywords POSITIVE NEGATIVE (pyLower (listingText inm)))
  obtain ⟨t2, ht2⟩ := addSurface_snd_append inm
    (addProximity f inm (scoreKeywords POSITIVE NEGATIVE (pyLower (listingText inm))))
  have h100 : (100 : ℚ) ≤ (addSurface inm (addProximity f inm
      (scoreKeywords POSITIVE NEGATIVE (pyLower (listingText inm))))).1 := by
    rw [hk]
    have h1 := addProximity_fst_le f inm (((100 : ℚ), ["Keyword explícita (100 %)"]))
    have h2 := addSurface_fst_le inm
      (addProximity f inm (((100 : ℚ), ["Keyword explícita (100 %)"])))
    dsimp only at h1
    linarith
  constructor
  · exact min_eq_right h100
  · show (addSurface inm (addProximity f inm
        (scoreKeywords POSITIVE NEGATIVE (pyLower (listingText inm))))).2.head?
      = some ("Keyword explícita (100 %)")
    rw [ht2, ht1, hk]
    rfl

unseal Rat.sub Rat.add Rat.mul Rat.inv Rat.ofScientific in
/-- C4 witness: a listing titled "Antigua iglesia en el centro" matches the explicit
keyword "iglesia", so its score is exactly 100 with the explicit note first. -/
theorem c4_witness :
    EXPLICIT.any (fun k => pyIn k (pyLower (listingText
        ⟨"Antigua iglesia en el centro", [], none, none, none⟩))) = true ∧
    (score [] [] (fun _ _ _ => []) ⟨"Antigua iglesia en el centro", [], none, none, none⟩).1 = 100 ∧
    (score [] [] (fun _ _ _ => [])
        ⟨"Antigua iglesia en el centro", [], none, none, none⟩).2.head?
      = some ("Keyword explícita (100 %)") :=
  ⟨by decide, c4_explicit_scores_100 [] [] (fun _ _ _ => [])
    ⟨"Antigua iglesia en el centro", [], none, none, none⟩ (by decide)⟩

unseal Rat.sub Rat.add Rat.mul Rat.inv Rat.ofScientific in
/-- C4 counterexample: the claim's "evidence list consisting of the single
explicit-match note, with all other scoring factors skipped" fails — a listing with an
explicit keyword and 400 m² of surface gets a second evidence entry from the surface
bonus (the code does not short-circuit the surface/proximity phases). -/
theorem c4_counterexample :
    (score [] [] (fun _ _ _ => [])
        ⟨"Antigua iglesia", [], none, none, some 400⟩).2
      = ["Keyword explícita (100 %)", "Superficie ≥ 300m²"] ∧
    ¬ ((score [] [] (fun _ _ _ => [])
        ⟨"Antigua iglesia", [], none, none, some 400⟩).2
      = ["Keyword explícita (100 %)"]) := by
  constructor <;> decide

/-! ### The Overpass proximity client (`OverpassClient.find_churches_nearby`)

The network interaction is modelled as an input of type `Except String (List
OverpassElement)`: `Except.error` stands for any raised exception (network error,
non-2xx HTTP status via `raise_for_status`, JSON decode failure), `Except.ok` for a
successfully parsed `elements` array.  Haversine distance is computed by the source in
floating point from transcendental functions; it enters the model as the collaborator
parameter `dist`.
-/

/-- One element of the parsed Overpass JSON answer: element type, id, the optional
`tags.name` value, optional own coordinates (nodes) and optional `center`
coordinates (ways/relations). -/
structure OverpassElement where
  etype : String
  id : ℕ
  tags_name : Option String
  lat : Option ℚ
  lon : Option ℚ
  center : Option (ℚ × ℚ)
deriving DecidableEq, Repr

/-- The element-to-church loop of `find_churches_nearby`.  A node element with a
missing coordinate makes the source raise inside the `try` block (modelled as
`none`, which the caller turns into the empty overall result); a non-node element
without `center` is skipped (`continue`). -/
def buildChurches (dist : ℚ → ℚ → ℚ → ℚ → ℚ) (qlat qlon : ℚ) :
    List OverpassElement → Option (List OSMChurch)
  | [] => some []
  | el :: rest =>
    let name := el.tags_name.getD ("Sin nombre")
    if el.etype == ("node") then
      match el.lat, el.lon with
      | some a, some b =>
        (buildChurches dist qlat qlon rest).map
          (fun tl => ⟨el.id, el.etype, name, a, b, dist qlat qlon a b⟩ :: tl)
      | _, _ => none
    else
      match el.center with
      | some c =>
        (buildChurches dist qlat qlon rest).map
          (fun tl => ⟨el.id, el.etype, name, c.1, c.2, dist qlat qlon c.1 c.2⟩ :: tl)
      | none => buildChurches dist qlat qlon rest

/-- The ordering used by `sorted(churches, key=lambda x: x.distance)`. -/
def distLE (a b : OSMChurch) : Prop := a.distance ≤ b.distance

instance : DecidableRel distLE := fun a b => inferInstanceAs (Decidable (a.distance ≤ b.distance))

instance : IsTotal OSMChurch distLE := ⟨fun a b => le_total a.distance b.distance⟩

instance : IsTrans OSMChurch distLE := ⟨fun _ _ _ h1 h2 => le_trans h1 h2⟩

/-- `OverpassClient.find_churches_nearby`: on any exception return `[]`; otherwise
build the church list and return it sorted ascending by distance (Python's `sorted`
is a stable sort; a stable insertion sort models it). The `radius` argument only
shapes the Overpass query string, i.e. the response, so it is unused here. -/
def find_churches_nearby (dist : ℚ → ℚ → ℚ → ℚ → ℚ) (qlat qlon _radius : ℚ)
    (response : Except String (List OverpassElement)) : List OSMChurch :=
  match response with
  | Except.error _ => []
  | Except.ok elements =>
    match buildChurches dist qlat qlon elements with
    | some churches => List.insertionSort distLE churches
    | none => []

/-! ### Claim C6 -/

/-- C6: any failure of the network request, HTTP status check or response parsing
yields the empty list (the function is total — no error value escapes), and on
success the result is sorted ascending by distance from the query point. -/
theorem c6_failure_empty_success_sorted (dist : ℚ → ℚ → ℚ → ℚ → ℚ)
    (qlat qlon radius : ℚ) :
    (∀ e, find_churches_nearby dist qlat qlon radius (Except.error e) = []) ∧
    (∀ elements, List.Sorted distLE
      (find_churches_nearby dist qlat qlon radius (Except.ok elements))) := by
  constructor
  · intro e
    rfl
  · intro elements
    show List.Sorted distLE
      (match buildChurches dist qlat qlon elements with
        | some churches => List.insertionSort distLE churches
        | none => [])
    cases buildChurches dist qlat qlon elements with
    | none => exact List.sorted_nil
    | some churches => exact List.sorted_insertionSort distLE churches

/-! ### The OSM matcher (`IdealistaOSMMatcher.find_match`)

The source reads exactly one listing field, `inmueble.get('titulo')`; the model takes
that optional title directly.  `OSMMatchResult` carries the matched church and the
confidence value.
-/

structure OSMMatchResult where
  osm_church : OSMChurch
  confidence : ℚ
deriving DecidableEq, Repr

/-- `IdealistaOSMMatcher.find_match`: empty candidate list → no match; otherwise the
first candidate whose lower-cased name contains, or is contained in, the lower-cased
title (`(inmueble.get('titulo') or '').lower()`) wins with confidence 95; else the
closest candidate wins with 80 (< 50 m) or 60 (< 150 m); else no match. -/
def find_match (titulo_opt : Option String) (osm_churches : List OSMChurch) :
    Option OSMMatchResult :=
  match osm_churches with
  | [] => none
  | closest :: _ =>
    let titulo := pyLower (titulo_opt.getD (""))
    match osm_churches.find? (fun ch =>
        pyIn (pyLower ch.name) titulo || pyIn titulo (pyLower ch.name)) with
    | some ch => some ⟨ch, 95⟩
    | none =>
      if closest.distance < 50 then some ⟨closest, 80⟩
      else if closest.distance < 150 then some ⟨closest, 60⟩
      else none

/-! ### Claim C9 -/

theorem pyIn_empty_left (s : String) : pyIn ("") s = true := by
  unfold pyIn charsContains
  cases s.data with
  | nil => rfl
  | cons c rest => rfl

/-- C9: with an absent or empty listing title, the empty string is a substring of
every candidate name, so `find_match` returns the first candidate with confidence 95
("exact"), regardless of its distance. -/
theorem c9_empty_title_exact_match (titulo_opt : Option String)
    (h : titulo_opt = none ∨ titulo_opt = some ("")) (c : OSMChurch) (rest : List OSMChurch) :
    find_match titulo_opt (c :: rest) = some ⟨c, 95⟩ := by
  have htitulo : pyLower (titulo_opt.getD ("")) = ("") := by
    rcases h with h | h <;> subst h <;> rfl
  unfold find_match
  dsimp only
  rw [htitulo]
  rw [List.find?_cons_of_pos]
  · rw [Bool.or_eq_true]
    right
    exact pyIn_empty_left _

/-- C9 witness: a single candidate 400 m away (beyond every distance tier) is still
returned as an exact match when the title is absent. -/
theorem c9_witness :
    find_match none [⟨7, ("node"), ("Iglesia de San Juan"), 2, 3, 400⟩]
      = some ⟨⟨7, ("node"), ("Iglesia de San Juan"), 2, 3, 400⟩, 95⟩ :=
  c9_empty_title_exact_match none (Or.inl rfl) ⟨7, ("node"), ("Iglesia de San Juan"), 2, 3, 400⟩ []

/-! ### Claim C10 -/

theorem buildChurches_name (dist : ℚ → ℚ → ℚ → ℚ → ℚ) (qlat qlon : ℚ) :
    ∀ els chs, buildChurches dist qlat qlon els = some chs →
    ∀ c ∈ chs, ∃ el, el ∈ els ∧ c.name = el.tags_name.getD ("Sin nombre") := by
  intro els
  induction els with
  | nil =>
    intro chs h c hc
    unfold buildChurches at h
    cases h
    cases hc
  | cons el rest ih =>
    intro chs h c hc
    unfold buildChurches at h
    dsimp only at h
    split at h
    · split at h
      · rw [Option.map_eq_some'] at h
        obtain ⟨tl, htl, rfl⟩ := h
        rcases List.mem_cons.mp hc with rfl | hmem
        · exact ⟨el, List.mem_cons_self _ _, rfl⟩
        · obtain ⟨el2, hel2, hname⟩ := ih tl htl c hmem
          exact ⟨el2, List.mem_cons_of_mem _ hel2, hname⟩
      · cases h
    · split at h
      · rw [Option.map_eq_some'] at h
        obtain ⟨tl, htl, rfl⟩ := h
        rcases List.mem_cons.mp hc with rfl | hmem
        · exact ⟨el, List.mem_cons_self _ _, rfl⟩
        · obtain ⟨el2, hel2, hname⟩ := ih tl htl c hmem
          exact ⟨el2, List.mem_cons_of_mem _ hel2, hname⟩
      · obtain ⟨el2, hel2, hname⟩ := ih chs h c hc
        exact ⟨el2, List.mem_cons_of_mem _ hel2, hname⟩

/-- A concrete distance collaborator consistent with haversine at coincident points
(haversine of a point with itself is 0). -/
def demoDist : ℚ → ℚ → ℚ → ℚ → ℚ := fun a b c d => if a = c ∧ b = d then 0 else 1000000

/-- An Overpass node element whose tags carry no `name`. -/
def elNoName : OverpassElement := ⟨("node"), 5, none, some 1, some 1, none⟩

/-- C10: every church produced by `find_churches_nearby` takes its name from the
element's `tags.name` with default "Sin nombre" — so a name is always present — and
the placeholder then takes part in `find_match`'s name-containment comparison exactly
like a real name (here producing a confidence-95 "exact" match against a listing
title containing "sin nombre"). -/
theorem c10_name_placeholder :
    (∀ (dist : ℚ → ℚ → ℚ → ℚ → ℚ) (qlat qlon radius : ℚ) elements c,
        c ∈ find_churches_nearby dist qlat qlon radius (Except.ok elements) →
        ∃ el, el ∈ elements ∧ c.name = el.tags_name.getD ("Sin nombre")) ∧
    find_match (some ("Local sin nombre en el centro"))
        (find_churches_nearby demoDist 0 0 200 (Except.ok [elNoName]))
      = some ⟨⟨5, ("node"), ("Sin nombre"), 1, 1, 1000000⟩, 95⟩ := by
  constructor
  · intro dist qlat qlon radius elements c hc
    unfold find_churches_nearby at hc
    dsimp only at hc
    revert hc
    cases hbc : buildChurches dist qlat qlon elements with
    | none => intro hc; cases hc
    | some churches =>
      intro hc
      rw [List.mem_insertionSort] at hc
      exact buildChurches_name dist qlat qlon elements churches hbc c hc
  · decide

/-- C10 witness: the nameless node element yields exactly the placeholder-named
church, instantiating the general conjunct of `c10_name_placeholder`. -/
theorem c10_witness :
    (⟨5, ("node"), ("Sin nombre"), 1, 1, 1000000⟩ : OSMChurch)
        ∈ find_churches_nearby demoDist 0 0 200 (Except.ok [elNoName]) ∧
    ∃ el, el ∈ [elNoName] ∧
      (⟨5, ("node"), ("Sin nombre"), 1, 1, 1000000⟩ : OSMChurch).name
        = el.tags_name.getD ("Sin nombre") :=
  ⟨by decide, c10_name_placeholder.1 demoDist 0 0 200 [elNoName]
    ⟨5, ("node"), ("Sin nombre"), 1, 1, 1000000⟩ (by decide)⟩

/-! ### Geometry & region model (`src/core/geo/models.py`)

`GeoRegion.contains_point` computes a haversine distance for circles via
floating-point trigonometry; the distance function enters the model as the
collaborator parameter `dist` (in meters), exactly as it enters the claims.  The
inert metadata fields of the dataclass (address, description, timestamps, creator)
are omitted.
-/

inductive RegionShape where
  | circle
  | polygon
  | bounding_box
  | administrative
deriving DecidableEq, Repr

structure GeoRegion where
  id : Option ℕ := none
  name : Option String := none
  shape_type : RegionShape
  center_lat : Option ℚ := none
  center_lon : Option ℚ := none
  radius_m : Option ℚ := none
  coordinates : Option (List (ℚ × ℚ)) := none
  is_active : Bool := true
  last_checked : Option ℕ := none
deriving DecidableEq, Repr

/-- `GeoRegion.contains_point`: for a circle, haversine distance from center ≤ radius
(the source reads the three circle fields unconditionally and would raise `TypeError`
were any `None`; that unreachable-by-claims case is modelled as `false`).  For
POLYGON and BOUNDING_BOX the source comment says "mejor usar PostGIS en producción /
aquí implementación simplificada" and the method falls through to `return False`. -/
def contains_point (dist : ℚ → ℚ → ℚ → ℚ → ℚ) (r : GeoRegion) (lat lon : ℚ) : Bool :=
  match r.shape_type with
  | RegionShape.circle =>
    match r.center_lat, r.center_lon, r.radius_m with
    | some clat, some clon, some rad => decide (dist clat clon lat lon ≤ rad)
    | _, _, _ => false
  | _ => false

/-- Bounding box record `(min_lat, min_lon, max_lat, max_lon)`. -/
structure BBox where
  min_lat : ℚ
  min_lon : ℚ
  max_lat : ℚ
  max_lon : ℚ
deriving DecidableEq, Repr

/-- `GeoRegion.get_bounding_box`: circle uses the 1° ≈ 111 km approximation with
`cos` entering as the collaborator parameter `cosF` (floating-point trig in the
source); polygon takes min/max over the vertices; bbox reads the two corner entries;
administrative regions produce `None`. -/
def get_bounding_box (cosF : ℚ → ℚ) (r : GeoRegion) : Option BBox :=
  match r.shape_type with
  | RegionShape.circle =>
    match r.center_lat, r.center_lon, r.radius_m with
    | some clat, some clon, some rad =>
      let latOff := rad / 111000
      let lonOff := rad / (111000 * |cosF clat|)
      some ⟨clat - latOff, clon - lonOff, clat + latOff, clon + lonOff⟩
    | _, _, _ => none
  | RegionShape.polygon =>
    match r.coordinates with
    | some (c :: cs) =>
      some ⟨(c :: cs).foldl (fun m p => min m p.1) c.1,
            (c :: cs).foldl (fun m p => min m p.2) c.2,
            (c :: cs).foldl (fun m p => max m p.1) c.1,
            (c :: cs).foldl (fun m p => max m p.2) c.2⟩
    | _ => none
  | RegionShape.bounding_box =>
    match r.coordinates with
    | some (sw :: ne :: _) => some ⟨sw.1, sw.2, ne.1, ne.2⟩
    | _ => none
  | RegionShape.administrative => none

/-! ### Claim C3 -/

/-- Modelled from the spec: "For polygon/bbox, point-in-polygon test (ray casting or
equivalent) against the vertex ring".  Standard even-odd crossing-number test over
the closed vertex ring, used as the reference meaning of "the point lies inside the
vertex ring". -/
def edgeCrosses (lat lon : ℚ) (e : (ℚ × ℚ) × (ℚ × ℚ)) : Bool :=
  (decide (e.1.1 > lat) != decide (e.2.1 > lat)) &&
    decide (lon < (e.2.2 - e.1.2) * (lat - e.1.1) / (e.2.1 - e.1.1) + e.1.2)

/-- Modelled from the spec (continued): a point is inside the ring when a ray from it
crosses the ring's edges an odd number of times. -/
def rayCastContains (pts : List (ℚ × ℚ)) (lat lon : ℚ) : Bool :=
  ((pts.zip (pts.rotate 1)).countP (edgeCrosses lat lon)) % 2 == 1

/-- A triangular polygon region with vertices (0,0), (4,0), (0,4). -/
def demoTriangle : GeoRegion :=
  { shape_type := RegionShape.polygon, coordinates := some [(0, 0), (4, 0), (0, 4)] }

/-- C3 (amended): `contains_point` returns `false` for every point of every polygon
and bounding-box region — the point-in-polygon test the spec describes is not
implemented (`return False` fallthrough); only circle containment works. -/
theorem c3_polygon_bbox_always_false (dist : ℚ → ℚ → ℚ → ℚ → ℚ) (r : GeoRegion)
    (lat lon : ℚ)
    (h : r.shape_type = RegionShape.polygon ∨ r.shape_type = RegionShape.bounding_box) :
    contains_point dist r lat lon = false := by
  unfold contains_point
  rcases h with h | h <;> rw [h]

/-- C3 witness: the triangle region rejects the point (1,1). -/
theorem c3_witness : contains_point demoDist demoTriangle 1 1 = false :=
  c3_polygon_bbox_always_false demoDist demoTriangle 1 1 (Or.inl rfl)

unseal Rat.sub Rat.add Rat.mul Rat.inv Rat.ofScientific in
/-- C3 counterexample: the point (1,1) lies strictly inside the triangle ring
(ray-casting reference test is true), yet `contains_point` returns `false` — so
`contains_point` does not decide membership in the vertex ring, and no interior
point of any polygon region ever returns `true`. -/
theorem c3_counterexample :
    rayCastContains [(0, 0), (4, 0), (0, 4)] 1 1 = true ∧
    contains_point demoDist demoTriangle 1 1 = false := by
  constructor
  · decide
  · decide

/-! ### The region scanner (`RegionMonitor.scan_region`)

The scan's collaborators are modelled as an explicit environment:
* `dist` — `_calculate_distance` / haversine (floating-point trig in the source);
* `cosF` — `cos` used by `get_bounding_box`;
* `scoreFn` — `self._score_inmueble` (the injected `ReligiousPropertyScorer`);
* `findNearby` — `self.overpass.find_churches_nearby`;
* `detection_threshold` and the status strings — `common_config.scoring`.  The
  module `src/modules/portals/config/common_config` is not present under `src/`;
  modelled from the spec: threshold defaults to 50 and the status mapping is
  `100 → "confirmed"`, `≥ threshold → "detected"`, `> 0 → "monitoring"` (the
  `score == 0` fallback string `'no_detectado'` is a literal in the source itself);
* `now` — the wall clock (`datetime.now()` / SQL `NOW()`).

The unified listing query result (one row of `portals.inmuebles_raw` left-joined
with `portals.detecciones`) is `InmuebleRow`; the detection store and the alert
store are association lists, with the upsert / insert-ignoring-duplicates semantics
of the two SQL statements made explicit.
-/

structure InmuebleRow where
  id : ℕ
  portal : String
  id_portal : String
  titulo : Option String := none
  descripcion : Option String := none
  precio : Option ℚ := none
  lat : ℚ
  lon : ℚ
  geo_type : Option String := none
  caracteristicas : List String := []
  score : Option ℚ := none
  status : Option String := none
  evidences : Option (List String) := none
  osm_match_id : Option ℕ := none
  osm_match_type : Option String := none
  is_active : Bool := true
deriving DecidableEq, Repr

/-- One row of `portals.detecciones` as written by `_save_detection`. -/
structure DetectionRec where
  score : ℚ
  status : String
  evidences : List String
  precio : Option ℚ
deriving DecidableEq, Repr

structure RegionAlert where
  region_id : ℕ
  portal : String
  inmueble_id : String
  titulo : Option String
  precio : Option ℚ
  score : ℚ
  status : Option String
  lat : ℚ
  lon : ℚ
  distance_to_center_m : Option ℚ
  osm_church_id : Option ℕ
  osm_church_name : Option String
  osm_distance_m : Option ℚ
  detected_at : ℕ
deriving DecidableEq, Repr

structure ScanEnv where
  dist : ℚ → ℚ → ℚ → ℚ → ℚ
  cosF : ℚ → ℚ
  scoreFn : InmuebleRow → ℚ × List String
  findNearby : ℚ → ℚ → ℚ → List OSMChurch
  detection_threshold : ℚ
  status_confirmed : String
  status_detected : String
  status_monitoring : String
  now : ℕ

/-- `RegionMonitor._get_status_for_score`. -/
def get_status_for_score (env : ScanEnv) (s : ℚ) : String :=
  if s = 100 then env.status_confirmed
  else if env.detection_threshold ≤ s then env.status_detected
  else if 0 < s then env.status_monitoring
  else ("no_detectado")

/-- The SQL candidate query: active rows with coordinates inside the bounding box
whose stored score is absent or at least the detection threshold. -/
def candidateFilter (thr : ℚ) (b : BBox) (r : InmuebleRow) : Bool :=
  r.is_active && decide (b.min_lat ≤ r.lat) && decide (r.lat ≤ b.max_lat)
    && decide (b.min_lon ≤ r.lon) && decide (r.lon ≤ b.max_lon)
    && (match r.score with
        | none => true
        | some s => decide (thr ≤ s))

/-- The per-candidate scoring step of `scan_region`: an unscored row is scored with
the injected scorer and — only when the computed score reaches the threshold — a
`_save_detection` upsert is recorded; an already-scored row reuses its stored
score/status.  Returns (score used in the alert, status used in the alert, the
`_save_detection` calls performed). -/
def detectStep (env : ScanEnv) (row : InmuebleRow) :
    ℚ × Option String × List (ℕ × DetectionRec) :=
  match row.score with
  | none =>
    let s := (env.scoreFn row).1
    let ev := (env.scoreFn row).2
    let st := get_status_for_score env s
    (s, some st,
      if env.detection_threshold ≤ s then [(row.id, ⟨s, st, ev, row.precio⟩)] else [])
  | some s => (s, row.status, [])

/-- The per-candidate OSM lookup of `scan_region` (fixed 150 m radius), guarded by
Python truthiness of the coordinates (`if row.lat and row.lon`). -/
def osmLookup (env : ScanEnv) (row : InmuebleRow) : Option ℕ × Option String × Option ℚ :=
  if pyTruthyNum row.lat && pyTruthyNum row.lon then
    match env.findNearby row.lat row.lon 150 with
    | closest :: _ => (some closest.osm_id, some closest.name, some closest.distance)
    | [] => (row.osm_match_id, none, none)
  else (row.osm_match_id, none, none)

/-- The distance-to-center computation of `scan_region`:
`self._calculate_distance(...) if region.center_lat else None` — Python truthiness
of `center_lat`, so `None` and latitude `0.0` both yield `None`. -/
def distToCenter (env : ScanEnv) (region : GeoRegion) (row : InmuebleRow) : Option ℚ :=
  if pyTruthyOpt region.center_lat then
    some (env.dist (region.center_lat.getD 0) (region.center_lon.getD 0) row.lat row.lon)
  else none

/-- The `RegionAlert(...)` construction of the candidate loop. -/
def alertOf (env : ScanEnv) (region : GeoRegion) (rid : ℕ) (row : InmuebleRow) :
    RegionAlert :=
  ⟨rid, row.portal, row.id_portal, row.titulo, row.precio,
   (detectStep env row).1, (detectStep env row).2.1,
   row.lat, row.lon, distToCenter env region row,
   (osmLookup env row).1, (osmLookup env row).2.1, (osmLookup env row).2.2, env.now⟩

/-- One iteration of the candidate loop: exact-containment re-test, then alert
construction (the alert is built for every candidate that passed containment,
whatever its score), paired with the `_save_detection` calls the iteration performs. -/
def processRow (env : ScanEnv) (region : GeoRegion) (rid : ℕ) (row : InmuebleRow) :
    Option (RegionAlert × List (ℕ × DetectionRec)) :=
  if contains_point env.dist region row.lat row.lon then
    some (alertOf env region rid row, (detectStep env row).2.2)
  else none

/-- `_save_detection`: `INSERT ... ON CONFLICT (inmueble_id) DO UPDATE` — an upsert
keyed by the listing's raw-table id. -/
def upsertDetection (store : List (ℕ × DetectionRec)) (i : ℕ) (rec : DetectionRec) :
    List (ℕ × DetectionRec) :=
  if store.any (fun p => p.1 == i) then
    store.map (fun p => if p.1 == i then (i, rec) else p)
  else store ++ [(i, rec)]

/-- `_save_alerts`: `INSERT ... ON CONFLICT (region_id, portal, inmueble_id) DO
NOTHING` — insert skipping key duplicates. -/
def insertAlertIgnoreDup (store : List RegionAlert) (a : RegionAlert) : List RegionAlert :=
  if store.any (fun b =>
      b.region_id == a.region_id && b.portal == a.portal && b.inmueble_id == a.inmueble_id)
  then store
  else store ++ [a]

structure ScanOutcome where
  alerts : List RegionAlert
  saved_detections : List (ℕ × DetectionRec)
  detection_store : List (ℕ × DetectionRec)
  alert_store : List RegionAlert
  region_last_checked : ℕ
deriving DecidableEq, Repr

/-- `RegionMonitor.scan_region`: load the region (`ValueError` if absent), compute
the bounding box (`ValueError` if impossible), run the SQL candidate pre-filter,
process each candidate (containment re-test, scoring + detection persistence, OSM
metadata, alert construction), bulk-insert the alerts ignoring duplicates, and stamp
the region's `last_checked`.  `saved_detections` is the trace of `_save_detection`
calls performed during the loop. -/
def scan_region (env : ScanEnv) (regionOpt : Option GeoRegion) (rid : ℕ)
    (rows : List InmuebleRow) (detStore : List (ℕ × DetectionRec))
    (alertStore : List RegionAlert) : Except String ScanOutcome :=
  match regionOpt with
  | none => Except.error ("Region not found")
  | some region =>
    match get_bounding_box env.cosF region with
    | none => Except.error ("Cannot compute bounding box for region")
    | some b =>
      let cands := rows.filter (candidateFilter env.detection_threshold b)
      let processed := cands.filterMap (processRow env region rid)
      let alerts := processed.map (fun p => p.1)
      let saved := (processed.map (fun p => p.2)).flatten
      Except.ok ⟨alerts, saved,
        saved.foldl (fun st p => upsertDetection st p.1 p.2) detStore,
        alerts.foldl insertAlertIgnoreDup alertStore,
        env.now⟩

/-! ### Concrete scan collaborators for the scenario claims -/

/-- Cosine collaborator for the scenarios (exact at the equator: cos 0 = 1). -/
def demoCos : ℚ → ℚ := fun _ => 1

/-- A scorer returning a constant answer, standing in for the injected
`ReligiousPropertyScorer` where the scenario fixes the computed score. -/
def constScore (s : ℚ) (ev : List String) : InmuebleRow → ℚ × List String :=
  fun _ => (s, ev)

/-- Scan environment for the scenario claims: `demoDist` haversine stand-in (exact
at coincident points), `demoCos`, no nearby OSM churches, detection threshold 50 and
the spec's status names. -/
def demoEnv (scoreFn : InmuebleRow → ℚ × List String) : ScanEnv :=
  ⟨demoDist, demoCos, scoreFn, fun _ _ _ => [], 50,
   ("confirmed"), ("detected"), ("monitoring"), 0⟩

/-! ### Claim C2 -/

/-- Circle region (id 1) of radius 500 m centered at (40, −3). -/
def regionC2 : GeoRegion :=
  { id := some 1, shape_type := RegionShape.circle, center_lat := some 40,
    center_lon := some (-3), radius_m := some 500 }

/-- Listing stored with score 55, status "detected" (the status
`_get_status_for_score` assigns to 55 under threshold 50). -/
def rowA : InmuebleRow :=
  { id := 11, portal := ("idealista"), id_portal := ("A55"),
    titulo := some ("Antiguo convento reformado"), precio := some 250000,
    lat := 40, lon := -3, score := some 55, status := some ("detected"),
    evidences := some [("Keyword positiva convento")] }

/-- Listing stored with score 30, status "monitoring". -/
def rowB : InmuebleRow :=
  { id := 12, portal := ("idealista"), id_portal := ("B30"),
    titulo := some ("Piso céntrico"), precio := some 180000,
    lat := 40, lon := -3, score := some 30, status := some ("monitoring") }

/-- The single alert the C2 scan produces. -/
def alertA : RegionAlert :=
  ⟨1, ("idealista"), ("A55"), some ("Antiguo convento reformado"), some 250000,
   55, some ("detected"), 40, -3, some 0, none, none, none, 0⟩

unseal Rat.sub Rat.add Rat.mul Rat.inv Rat.ofScientific in
/-- C2: a region holding two listings scored 55 and 30 under detection threshold 50
yields exactly one persisted alert, for the 55-scored listing, with status
"detected": the SQL candidate pre-filter (`d.score IS NULL OR d.score >= :min_score`)
excludes the 30-scored listing, and the stored statuses are the ones
`_get_status_for_score` derives from 55 and 30 (also proved below). -/
theorem c2_two_listings_one_alert :
    scan_region (demoEnv (constScore 0 [])) (some regionC2) 1 [rowA, rowB] [] []
      = Except.ok ⟨[alertA], [], [], [alertA], 0⟩ ∧
    alertA.status = some ("detected") ∧
    alertA.inmueble_id = rowA.id_portal ∧
    (∀ a ∈ [alertA], a.inmueble_id ≠ rowB.id_portal) ∧
    get_status_for_score (demoEnv (constScore 0 [])) 55 = ("detected") ∧
    get_status_for_score (demoEnv (constScore 0 [])) 30 = ("monitoring") := by
  refine ⟨by rfl, rfl, rfl, by decide, by decide, by decide⟩

/-! ### Claim C5 -/

theorem mem_detectStep_dets (env : ScanEnv) (row : InmuebleRow) (p : ℕ × DetectionRec) :
    p ∈ (detectStep env row).2.2 ↔
      row.score = none ∧ env.detection_threshold ≤ (env.scoreFn row).1 ∧
      p = (row.id, ⟨(env.scoreFn row).1,
            get_status_for_score env ((env.scoreFn row).1),
            (env.scoreFn row).2, row.precio⟩) := by
  cases hs : row.score with
  | some s =>
    unfold detectStep
    rw [hs]
    constructor
    · intro hp
      cases hp
    · rintro ⟨hnone, -, -⟩
      cases hnone
  | none =>
    unfold detectStep
    rw [hs]
    dsimp only
    split
    next hthr =>
      constructor
      · intro hp
        rw [List.mem_singleton] at hp
        exact ⟨rfl, hthr, hp⟩
      · rintro ⟨-, -, rfl⟩
        exact List.mem_singleton.mpr rfl
    next hthr =>
      constructor
      · intro hp
        cases hp
      · rintro ⟨-, h2, -⟩
        exact absurd h2 hthr

theorem processRow_eq_some (env : ScanEnv) (region : GeoRegion) (rid : ℕ)
    (row : InmuebleRow) (pr : RegionAlert × List (ℕ × DetectionRec)) :
    processRow env region rid row = some pr ↔
      contains_point env.dist region row.lat row.lon = true ∧
      pr = (alertOf env region rid row, (detectStep env row).2.2) := by
  unfold processRow
  split
  next hcont =>
    constructor
    · intro hp
      injection hp with hp
      exact ⟨hcont, hp.symm⟩
    · rintro ⟨-, rfl⟩
      rfl
  next hcont =>
    constructor
    · intro hp
      cases hp
    · rintro ⟨hc, -⟩
      exact absurd hc hcont

/-- C5 (amended): a `_save_detection` upsert is performed exactly for the candidates
that pass the pre-filter and exact containment, are unscored, **and** whose computed
score reaches the detection threshold — not for every unscored candidate: the source
guards the persistence with `if score >= min_score`. -/
theorem c5_detection_persistence (env : ScanEnv) (region : GeoRegion) (rid : ℕ)
    (rows : List InmuebleRow) (detStore : List (ℕ × DetectionRec))
    (alertStore : List RegionAlert) (out : ScanOutcome)
    (h : scan_region env (some region) rid rows detStore alertStore = Except.ok out)
    (p : ℕ × DetectionRec) :
    p ∈ out.saved_detections ↔
      ∃ b r, get_bounding_box env.cosF region = some b ∧ r ∈ rows ∧
        candidateFilter env.detection_threshold b r = true ∧
        contains_point env.dist region r.lat r.lon = true ∧
        r.score = none ∧
        env.detection_threshold ≤ (env.scoreFn r).1 ∧
        p = (r.id, ⟨(env.scoreFn r).1,
              get_status_for_score env ((env.scoreFn r).1),
              (env.scoreFn r).2, r.precio⟩) := by
  unfold scan_region at h
  dsimp only at h
  split at h
  · cases h
  · rename_i b hbb
    injection h with h
    subst h
    dsimp only
    constructor
    · intro hp
      rw [List.mem_flatten] at hp
      obtain ⟨l, hl, hpl⟩ := hp
      rw [List.mem_map] at hl
      obtain ⟨pr, hpr, rfl⟩ := hl
      rw [List.mem_filterMap] at hpr
      obtain ⟨r, hr, hproc⟩ := hpr
      rw [List.mem_filter] at hr
      rw [processRow_eq_some] at hproc
      obtain ⟨hcont, rfl⟩ := hproc
      rw [mem_detectStep_dets] at hpl
      exact ⟨b, r, hbb, hr.1, hr.2, hcont, hpl.1, hpl.2.1, hpl.2.2⟩
    · rintro ⟨b2, r, hb2, hrmem, hfilt, hcont, hunscored, hthr, rfl⟩
      rw [hbb] at hb2
      injection hb2 with hb2
      subst hb2
      rw [List.mem_flatten]
      refine ⟨(detectStep env r).2.2, ?_, ?_⟩
      · rw [List.mem_map]
        refine ⟨(alertOf env region rid r, (detectStep env r).2.2), ?_, rfl⟩
        rw [List.mem_filterMap]
        refine ⟨r, ?_, ?_⟩
        · rw [List.mem_filter]; exact ⟨hrmem, hfilt⟩
        · rw [processRow_eq_some]; exact ⟨hcont, rfl⟩
      · rw [mem_detectStep_dets]
        exact ⟨hunscored, hthr, rfl⟩

/-- Unscored listing inside the C2 region. -/
def rowC : InmuebleRow :=
  { id := 21, portal := ("idealista"), id_portal := ("C1"), lat := 40, lon := -3 }

/-- The alert the C5 counterexample scan still produces for the unscored listing. -/
def alertC : RegionAlert :=
  ⟨1, ("idealista"), ("C1"), none, none, 30, some ("monitoring"), 40, -3, some 0,
   none, none, none, 0⟩

unseal Rat.sub Rat.add Rat.mul Rat.inv Rat.ofScientific in
/-- C5 counterexample: an unscored candidate that passes exact containment and whose
computed score (30) is below the threshold (50) gets **no** detection persisted
(`saved_detections = []`, detection store unchanged), refuting "persists … for every
such candidate, regardless of whether the computed score meets the detection
threshold". -/
theorem c5_counterexample :
    contains_point demoDist regionC2 rowC.lat rowC.lon = true ∧
    rowC.score = none ∧
    scan_region (demoEnv (constScore 30 [("Keyword positiva campanario")]))
        (some regionC2) 1 [rowC] [] []
      = Except.ok ⟨[alertC], [], [], [alertC], 0⟩ := by
  refine ⟨by rfl, rfl, by rfl⟩

unseal Rat.sub Rat.add Rat.mul Rat.inv Rat.ofScientific in
/-- C5 witness: instantiating `c5_detection_persistence` on the counterexample scan
shows its characterization concretely — the below-threshold upsert for `rowC` is not
among the saved detections. -/
theorem c5_witness :
    ¬ ((21, (⟨30, ("monitoring"), [("Keyword positiva campanario")], none⟩ : DetectionRec))
        ∈ (ScanOutcome.mk [alertC] [] [] [alertC] 0).saved_detections) := by
  intro hmem
  have h := (c5_detection_persistence (demoEnv (constScore 30 [("Keyword positiva campanario")]))
    regionC2 1 [rowC] [] [] (ScanOutcome.mk [alertC] [] [] [alertC] 0)
    (by rfl)
    (21, (⟨30, ("monitoring"), [("Keyword positiva campanario")], none⟩ : DetectionRec))).mp hmem
  obtain ⟨b, r, _, hrmem, _, _, _, hthr, hp⟩ := h
  rw [List.mem_singleton] at hrmem
  subst hrmem
  revert hthr
  decide

/-! ### Claim C8 -/

/-- C8 (amended): the alert's distance-to-center is the haversine distance from the
region center exactly when `center_lat` is Python-truthy — non-null **and** nonzero;
it is null when `center_lat` is `None` or `0.0`, so a circle centered on the equator
gets a null distance despite having a defined center. -/
theorem c8_distance_truthiness (env : ScanEnv) (region : GeoRegion) (rid : ℕ)
    (row : InmuebleRow) (a : RegionAlert) (dets : List (ℕ × DetectionRec))
    (h : processRow env region rid row = some (a, dets)) :
    ((region.center_lat = none ∨ region.center_lat = some 0) →
      a.distance_to_center_m = none) ∧
    (∀ c, region.center_lat = some c → ¬ c = 0 →
      a.distance_to_center_m
        = some (env.dist c (region.center_lon.getD 0) row.lat row.lon)) := by
  rw [processRow_eq_some] at h
  obtain ⟨-, hpr⟩ := h
  have ha : a = alertOf env region rid row := congrArg Prod.fst hpr
  subst ha
  constructor
  · intro hc
    show distToCenter env region row = none
    unfold distToCenter
    rcases hc with hc | hc <;> rw [hc] <;> rfl
  · intro c hc hc0
    show distToCenter env region row = _
    unfold distToCenter
    rw [hc]
    have : pyTruthyOpt (some c) = true := by
      unfold pyTruthyOpt
      simpa using hc0
    rw [this]
    rfl

/-- Circle region (id 2) centered on the equator: latitude 0, longitude 10. -/
def regionEq : GeoRegion :=
  { id := some 2, shape_type := RegionShape.circle, center_lat := some 0,
    center_lon := some 10, radius_m := some 500 }

/-- Stored-scored listing at the equator region's center. -/
def rowE : InmuebleRow :=
  { id := 31, portal := ("idealista"), id_portal := ("E1"), lat := 0, lon := 10,
    score := some 60, status := some ("detected") }

/-- The alert the C8 counterexample scan produces: its distance field is null. -/
def alertE : RegionAlert :=
  ⟨2, ("idealista"), ("E1"), none, none, 60, some ("detected"), 0, 10, none,
   none, none, none, 0⟩

unseal Rat.sub Rat.add Rat.mul Rat.inv Rat.ofScientific in
/-- C8 counterexample: the equator circle has a defined center
(`center_lat = some 0`), the candidate passes containment, yet the produced alert
carries `distance_to_center_m = none` — refuting "distance … equals the haversine
distance … whenever the region has a defined center point (every circle, including
one whose center latitude is 0.0)". -/
theorem c8_counterexample :
    regionEq.center_lat = some 0 ∧
    regionEq.shape_type = RegionShape.circle ∧
    scan_region (demoEnv (constScore 0 [])) (some regionEq) 2 [rowE] [] []
      = Except.ok ⟨[alertE], [], [], [alertE], 0⟩ ∧
    alertE.distance_to_center_m = none := by
  refine ⟨rfl, rfl, by rfl, rfl⟩

unseal Rat.sub Rat.add Rat.mul Rat.inv Rat.ofScientific in
/-- C8 witness: `c8_distance_truthiness` applied to the equator scenario. -/
theorem c8_witness :
    ((regionEq.center_lat = none ∨ regionEq.center_lat = some 0) →
      alertE.distance_to_center_m = none) ∧
    (∀ c, regionEq.center_lat = some c → ¬ c = 0 →
      alertE.distance_to_center_m
        = some ((demoEnv (constScore 0 [])).dist c (regionEq.center_lon.getD 0)
            rowE.lat rowE.lon)) :=
  c8_distance_truthiness (demoEnv (constScore 0 [])) regionEq 2 rowE alertE []
    (by decide)

/-! ### The monitor scheduler (`start_monitoring` / `stop_monitoring`)

`self.active_monitors : Dict[int, asyncio.Task]` is modelled as an association list
from region id to the task's re-scan interval (the only datum of the spawned
`_monitor_loop` task); dict semantics (unique keys) is the invariant proved, not
assumed by the representation. -/

/-- Dict lookup `region_id in self.active_monitors`. -/
def findTask (st : List (ℕ × ℕ)) (rid : ℕ) : Option (ℕ × ℕ) :=
  st.find? (fun p => p.1 == rid)

/-- `RegionMonitor.start_monitoring`: no-op when a task for the region already
exists, otherwise record a new monitoring task. -/
def start_monitoring (st : List (ℕ × ℕ)) (rid interval_hours : ℕ) : List (ℕ × ℕ) :=
  if (findTask st rid).isSome then st else st ++ [(rid, interval_hours)]

/-- `RegionMonitor.stop_monitoring`: cancel and delete the region's task if present,
no-op otherwise. -/
def stop_monitoring (st : List (ℕ × ℕ)) (rid : ℕ) : List (ℕ × ℕ) :=
  if (findTask st rid).isSome then st.eraseP (fun p => p.1 == rid) else st

/-- Number of tasks recorded for one region id. -/
def countTasks (st : List (ℕ × ℕ)) (rid : ℕ) : ℕ :=
  (st.map Prod.fst).count rid

/-- Dict well-formedness: region ids are unique. -/
def KeysNodup (st : List (ℕ × ℕ)) : Prop := (st.map Prod.fst).Nodup

instance (st : List (ℕ × ℕ)) : Decidable (KeysNodup st) :=
  inferInstanceAs (Decidable ((st.map Prod.fst).Nodup))

theorem findTask_isSome_iff (st : List (ℕ × ℕ)) (rid : ℕ) :
    (findTask st rid).isSome = true ↔ rid ∈ st.map Prod.fst := by
  unfold findTask
  rw [List.find?_isSome]
  constructor
  · rintro ⟨x, hx, hbeq⟩
    have hx1 : x.1 = rid := by simpa using hbeq
    exact hx1 ▸ List.mem_map_of_mem Prod.fst hx
  · intro hmem
    rw [List.mem_map] at hmem
    obtain ⟨x, hx, rfl⟩ := hmem
    exact ⟨x, hx, by simp⟩

theorem keys_eraseP (st : List (ℕ × ℕ)) (rid : ℕ) :
    (st.eraseP (fun p => p.1 == rid)).map Prod.fst = (st.map Prod.fst).erase rid := by
  induction st with
  | nil => rfl
  | cons a tl ih =>
    rw [List.eraseP_cons, List.map_cons, List.erase_cons]
    cases ha : (a.1 == rid) with
    | true =>
      rw [Bool.cond_true, if_pos rfl]
    | false =>
      rw [Bool.cond_false, if_neg (by simp), List.map_cons, ih]

/-! ### Claim C7 -/

/-- C7: the scheduler keeps at most one task per region id — starting is a no-op when
a task exists (starting twice in a row leaves exactly one task for the region, and
the second start changes nothing), stopping removes the region's mapping and is a
no-op when the region is not monitored; key-uniqueness of the task map is preserved
by both operations. -/
theorem c7_monitor_lifecycle (st : List (ℕ × ℕ)) (rid interval_hours : ℕ)
    (h : KeysNodup st) :
    countTasks (start_monitoring st rid interval_hours) rid = 1 ∧
    start_monitoring (start_monitoring st rid interval_hours) rid interval_hours
      = start_monitoring st rid interval_hours ∧
    ((findTask st rid).isSome = true → start_monitoring st rid interval_hours = st) ∧
    countTasks (stop_monitoring st rid) rid = 0 ∧
    (findTask st rid = none → stop_monitoring st rid = st) ∧
    KeysNodup (start_monitoring st rid interval_hours) ∧
    KeysNodup (stop_monitoring st rid) := by
  have hle1 : ∀ l : List ℕ, l.Nodup → l.count rid ≤ 1 := by
    intro l hl
    exact List.nodup_iff_count_le_one.mp hl rid
  have hcount1 : countTasks (start_monitoring st rid interval_hours) rid = 1 := by
    cases hf : (findTask st rid).isSome with
    | true =>
      have hmem : rid ∈ st.map Prod.fst := (findTask_isSome_iff st rid).mp hf
      have hge : 0 < (st.map Prod.fst).count rid := List.count_pos_iff.mpr hmem
      have hle : (st.map Prod.fst).count rid ≤ 1 := hle1 _ h
      simp only [start_monitoring, hf, if_true, countTasks]
      omega
    | false =>
      have hnone : findTask st rid = none := by
        cases hfn : findTask st rid with
        | none => rfl
        | some p => rw [hfn] at hf; cases hf
      have hnotmem : ¬ rid ∈ st.map Prod.fst := by
        intro hmem
        rw [← findTask_isSome_iff st rid] at hmem
        rw [hmem] at hf
        cases hf
      simp only [start_monitoring, hf, Bool.false_eq_true, if_false, countTasks,
        List.map_append, List.count_append]
      rw [List.count_eq_zero.mpr hnotmem]
      simp
  have hstart_nodup : KeysNodup (start_monitoring st rid interval_hours) := by
    cases hf : (findTask st rid).isSome with
    | true => simpa only [start_monitoring, hf, if_true] using h
    | false =>
      have hnotmem : ¬ rid ∈ st.map Prod.fst := by
        intro hmem
        rw [← findTask_isSome_iff st rid] at hmem
        rw [hmem] at hf
        cases hf
      simp only [start_monitoring, hf, Bool.false_eq_true, if_false, KeysNodup,
        List.map_append]
      apply List.Nodup.append h (List.nodup_singleton rid)
      intro x hx hx2
      rw [List.mem_singleton] at hx2
      subst hx2
      exact hnotmem hx
  refine ⟨hcount1, ?_, ?_, ?_, ?_, hstart_nodup, ?_⟩
  · have hmem2 : rid ∈ (start_monitoring st rid interval_hours).map Prod.fst := by
      rw [← List.count_pos_iff]
      unfold countTasks at hcount1
      omega
    have hf2 : (findTask (start_monitoring st rid interval_hours) rid).isSome = true :=
      (findTask_isSome_iff _ rid).mpr hmem2
    show (if (findTask (start_monitoring st rid interval_hours) rid).isSome = true
        then start_monitoring st rid interval_hours
        else start_monitoring st rid interval_hours ++ [(rid, interval_hours)])
      = start_monitoring st rid interval_hours
    rw [hf2, if_pos rfl]
  · intro hf
    show (if (findTask st rid).isSome = true then st else st ++ [(rid, interval_hours)]) = st
    rw [hf, if_pos rfl]
  · cases hf : (findTask st rid).isSome with
    | true =>
      have hle : (st.map Prod.fst).count rid ≤ 1 := hle1 _ h
      simp only [stop_monitoring, hf, if_true, countTasks, keys_eraseP]
      rw [List.count_erase_self]
      omega
    | false =>
      have hnotmem : ¬ rid ∈ st.map Prod.fst := by
        intro hmem
        rw [← findTask_isSome_iff st rid] at hmem
        rw [hmem] at hf
        cases hf
      simp only [stop_monitoring, hf, Bool.false_eq_true, if_false, countTasks]
      exact List.count_eq_zero.mpr hnotmem
  · intro hf
    have hf2 : (findTask st rid).isSome = false := by rw [hf]; rfl
    simp only [stop_monitoring, hf2, Bool.false_eq_true, if_false]
  · cases hf : (findTask st rid).isSome with
    | true =>
      simp only [stop_monitoring, hf, if_true, KeysNodup, keys_eraseP]
      exact List.Nodup.erase rid h
    | false =>
      simpa only [stop_monitoring, hf, Bool.false_eq_true, if_false] using h

/-- C7 witness: starting region 5 twice on a one-task map leaves exactly one task
for region 5; stopping removes it. -/
theorem c7_witness :
    KeysNodup [(3, 12)] ∧
    (countTasks (start_monitoring [(3, 12)] 5 24) 5 = 1 ∧
     start_monitoring (start_monitoring [(3, 12)] 5 24) 5 24
       = start_monitoring [(3, 12)] 5 24 ∧
     ((findTask [(3, 12)] 5).isSome = true → start_monitoring [(3, 12)] 5 24 = [(3, 12)]) ∧
     countTasks (stop_monitoring [(3, 12)] 5) 5 = 0 ∧
     (findTask [(3, 12)] 5 = none → stop_monitoring [(3, 12)] 5 = [(3, 12)]) ∧
     KeysNodup (start_monitoring [(3, 12)] 5 24) ∧
     KeysNodup (stop_monitoring [(3, 12)] 5)) :=
  ⟨by decide, c7_monitor_lifecycle [(3, 12)] 5 24 (by decide)⟩


end SipiEtl
